import Mathlib

/-!
Verification development for the `modelhub` scripts: a shallow embedding of
`azureFoundry.py`, `vertex.py` and `eu-residency-validation.py`, and proofs
about the response extraction, request building, MIME resolution,
configuration checks and region validation implemented there.

Modelling conventions:
* Parsed JSON bodies (`response.json()`) are values of an inductive `Json`
  type; JSON numbers are modelled as integers (no claim inspects numeric
  payload fields, and floating point is not modelled).
* Python `dict`/`list`/`str` operations used by the scripts (`in`, `len`,
  indexing, `.strip()`) are embedded by total functions returning `Except`,
  with explicit constructors for the dynamic errors Python would raise
  (`TypeError`, `KeyError`, `IndexError`, `AttributeError`).
* The filesystem is a function `FS : String → Option (List Nat)` giving the
  byte contents of existing, readable files; `none` models a path on which
  `Path(p).exists()` is false / `open` raises `FileNotFoundError`.
* The HTTP / SDK transport is an explicit oracle argument, so that
  "fails before any network call" is provable as independence from, and
  non-invocation of, the oracle.
* `str.lower()` / `str.strip()` are modelled on the ASCII subset (the file
  extensions and whitespace the scripts deal in are ASCII).
-/

namespace Modelhub

/-- JSON values, the domain of parsed HTTP response bodies. Numbers are
modelled as integers. -/
inductive Json where
  | null
  | bool (b : Bool)
  | num (n : Int)
  | str (s : String)
  | arr (xs : List Json)
  | obj (fields : List (String × Json))

/-- ASCII whitespace characters removed by Python `str.strip()`. -/
def pyIsSpace (c : Char) : Bool :=
  c == ' ' || c == '\t' || c == '\n' || c == '\r' || c == '\x0b' || c == '\x0c'

/-- Python `str.strip()`: remove leading and trailing whitespace. -/
def pyStrip (s : String) : String :=
  String.mk (((s.data.dropWhile pyIsSpace).reverse.dropWhile pyIsSpace).reverse)

/-- Does `pat` occur at the start of `l`? (Helper for Python substring `in`.) -/
def startsWithChars : List Char → List Char → Bool
  | [], _ => true
  | _ :: _, [] => false
  | p :: ps, c :: cs => p == c && startsWithChars ps cs

/-- Does `pat` occur anywhere in `l`? Models Python `pat in s` on strings. -/
def charsHasSub (pat : List Char) : List Char → Bool
  | [] => pat == []
  | c :: cs => startsWithChars pat (c :: cs) || charsHasSub pat cs

/-- First binding of key `k` in an association list; models Python `dict`
lookup (`dict` keys are unique, so first-match is exact). -/
def lookupField : List (String × Json) → String → Option Json
  | [], _ => none
  | kv :: rest, k => if kv.1 == k then some kv.2 else lookupField rest k

/-- Key lookup on a JSON value: `some v` when the value is an object with the
key present, `none` otherwise. -/
def jLookup : Json → String → Option Json
  | .obj fields, k => lookupField fields k
  | _, _ => none

/-- Split a character list on `'/'` (helper for `pathlib` name extraction);
always returns at least one (possibly empty) component. -/
def splitSlash : List Char → List (List Char)
  | [] => [[]]
  | x :: xs =>
    match splitSlash xs with
    | [] => [[]]
    | g :: gs => if x == '/' then [] :: g :: gs else (x :: g) :: gs

/-- Python `pathlib.PurePath(p).name`: the final path component, ignoring trailing
slashes. -/
def pathName (p : String) : String :=
  match (splitSlash p.data).reverse.dropWhile List.isEmpty with
  | [] => ""
  | n :: _ => String.mk n

/-- Python `pathlib.PurePath(p).suffix`: the extension of the final component,
including the leading dot; empty when the name has no dot, starts with its
only dot (hidden files), or ends with its last dot. Follows `pathlib`:
`i = name.rfind('.')`, returning `name[i:]` when `0 < i < len(name) - 1`. -/
def pathSuffix (p : String) : String :=
  let cs := (pathName p).data
  match cs.reverse.findIdx? (fun c => c == '.') with
  | none => ""
  | some j =>
    let i := cs.length - 1 - j
    if 0 < i ∧ i < cs.length - 1 then String.mk (cs.drop i) else ""

/-- Python `str.lower()` on the ASCII subset (extensions are ASCII). -/
def lowerAscii (s : String) : String :=
  String.mk (s.data.map Char.toLower)

/-- The fixed extension-to-MIME table, identical in
`azureFoundry.py` (lines 148-154) and `vertex.py` (lines 88-94). -/
def mime_type_map : List (String × String) :=
  [(".jpg", "image/jpeg"), (".jpeg", "image/jpeg"), (".png", "image/png"),
   (".gif", "image/gif"), (".webp", "image/webp")]

/-- MIME resolution: `mime_type_map.get(Path(p).suffix.lower(), 'image/jpeg')`
(`azureFoundry.py` lines 147-156, `vertex.py` lines 87-96). Total: unknown or
missing extensions fall back to `image/jpeg`. -/
def mimeTypeFor (p : String) : String :=
  match mime_type_map.find? (fun q => q.1 == lowerAscii (pathSuffix p)) with
  | some q => q.2
  | none => "image/jpeg"

/-- The filesystem: byte contents of each existing, readable file. -/
def FS : Type := String → Option (List Nat)

/-- The base64 alphabet. -/
def base64Table : List Char :=
  "ABCDEFGHIJKLMNOPQRSTUVWXYZabcdefghijklmnopqrstuvwxyz0123456789+/".data

/-- Character for a 6-bit group. -/
def b64Char (n : Nat) : Char := base64Table.getD n '='

/-- Standard base64 of a byte sequence (as produced by
`base64.b64encode(..).decode('utf-8')`), three bytes to four characters with
`=` padding. -/
def base64Encode : List Nat → List Char
  | [] => []
  | [b1] => [b64Char (b1 / 4), b64Char (b1 % 4 * 16), '=', '=']
  | [b1, b2] => [b64Char (b1 / 4), b64Char (b1 % 4 * 16 + b2 / 16), b64Char (b2 % 16 * 4), '=']
  | b1 :: b2 :: b3 :: rest =>
    b64Char (b1 / 4) :: b64Char (b1 % 4 * 16 + b2 / 16) ::
      b64Char (b2 % 16 * 4 + b3 / 64) :: b64Char (b3 % 64) :: base64Encode rest

/-- Python `str.rstrip('/')`: remove all trailing `'/'` characters. -/
def rstripSlash (s : String) : String :=
  String.mk ((s.data.reverse.dropWhile (fun c => c == '/')).reverse)

end Modelhub

namespace Modelhub.AzureFoundry

open Modelhub

/-- Failures of `azureFoundry.py` operations, as the Python exceptions the
script raises or lets escape. The two `ValueError`s raised by the response
parsing of `call_azure_openai_gpt4` (lines 91 and 93) interpolate the full
`response_json` into their message; they are modelled as carrying that value. -/
inductive AzureError where
  /-- The `ValueError("<var> environment variable not set.")` of lines 58-61. -/
  | configError (varName : String)
  /-- The `FileNotFoundError` from `send_image_message` (line 144). -/
  | fileNotFound (path : String)
  /-- A transport-level failure propagated from `requests` (lines 95-108). -/
  | transport
  /-- The `ValueError(".. 'choices' array not found or empty. Full response: ..")`
  carrying the raw response (line 93). -/
  | valueErrorChoices (raw : Json)
  /-- The `ValueError(".. 'message.content' not found in choices. Full response: ..")`
  carrying the raw response (line 91). -/
  | valueErrorContent (raw : Json)
  /-- Python `TypeError` (e.g. `len()` or `in` on an unsupported value). -/
  | typeError
  /-- Python `KeyError` (indexing a dict with an absent key). -/
  | keyError
  /-- Python `IndexError` (indexing an empty sequence). -/
  | indexError
  /-- Python `AttributeError` (e.g. `.strip()` on a non-string value). -/
  | attributeError

/-- Python `k in j` for a string key, as evaluated on a JSON value:
key membership on dicts, element membership on lists, substring test on
strings, `TypeError` otherwise. -/
def pyContains (j : Json) (k : String) : Except AzureError Bool :=
  match j with
  | .obj fields => .ok (lookupField fields k).isSome
  | .arr xs => .ok (xs.any fun x => match x with | .str s => s == k | _ => false)
  | .str s => .ok (charsHasSub k.data s.data)
  | _ => .error .typeError

/-- Python `len(j)` on a JSON value. -/
def pyLen (j : Json) : Except AzureError Nat :=
  match j with
  | .arr xs => .ok xs.length
  | .str s => .ok s.length
  | .obj fields => .ok fields.length
  | _ => .error .typeError

/-- Python `j[k]` for a string key `k`. -/
def pyGetItemStr (j : Json) (k : String) : Except AzureError Json :=
  match j with
  | .obj fields =>
    match lookupField fields k with
    | some v => .ok v
    | none => .error .keyError
  | _ => .error .typeError

/-- Python `j[0]`. On a dict this is lookup of the integer key `0`, which a
JSON object (string keys only) never contains, hence `KeyError`. -/
def pyGetItemZero (j : Json) : Except AzureError Json :=
  match j with
  | .arr (x :: _) => .ok x
  | .arr [] => .error .indexError
  | .str s =>
    match s.data with
    | c :: _ => .ok (.str (String.mk [c]))
    | [] => .error .indexError
  | .obj _ => .error .keyError
  | _ => .error .typeError

/-- Python `j.strip()`: succeeds exactly on strings, `AttributeError`
otherwise. -/
def pyStripAttr (j : Json) : Except AzureError String :=
  match j with
  | .str s => .ok (pyStrip s)
  | _ => .error .attributeError

/-- Right operand of the first short-circuit `and` of the parsing step:
`len(response_json["choices"]) > 0`. -/
def choicesNonempty (raw : Json) : Except AzureError Bool :=
  match pyGetItemStr raw "choices" with
  | .error e => .error e
  | .ok cs =>
    match pyLen cs with
    | .error e => .error e
    | .ok n => .ok (decide (n > 0))

/-- Right operand of the second short-circuit `and` of the parsing step:
`"content" in first_choice["message"]`. -/
def messageHasContent (first : Json) : Except AzureError Bool :=
  match pyGetItemStr first "message" with
  | .error e => .error e
  | .ok m => pyContains m "content"

/-- The response-parsing step of `call_azure_openai_gpt4`
(`azureFoundry.py` lines 86-93), applied to the parsed JSON body:

    if "choices" in response_json and len(response_json["choices"]) > 0:
        first_choice = response_json["choices"][0]
        if "message" in first_choice and "content" in first_choice["message"]:
            return first_choice["message"]["content"].strip()
        else:
            raise ValueError("... 'message.content' not found ...")
    else:
        raise ValueError("... 'choices' array not found or empty ...")

The two `and`s short-circuit (the right operand is only evaluated when the
left one is true), and each Python subexpression is embedded by the
corresponding `py*` helper so dynamic errors propagate faithfully. -/
def extract_azure (raw : Json) : Except AzureError String :=
  match pyContains raw "choices" with
  | .error e => .error e
  | .ok hasChoices =>
    match (if hasChoices then choicesNonempty raw else .ok false) with
    | .error e => .error e
    | .ok false => .error (.valueErrorChoices raw)
    | .ok true =>
      match pyGetItemStr raw "choices" with
      | .error e => .error e
      | .ok cs =>
        match pyGetItemZero cs with
        | .error e => .error e
        | .ok first =>
          match pyContains first "message" with
          | .error e => .error e
          | .ok hasMsg =>
            match (if hasMsg then messageHasContent first else .ok false) with
            | .error e => .error e
            | .ok false => .error (.valueErrorContent raw)
            | .ok true =>
              match pyGetItemStr first "message" with
              | .error e => .error e
              | .ok m =>
                match pyGetItemStr m "content" with
                | .error e => .error e
                | .ok content => pyStripAttr content

/-- Which raw response value, if any, an `AzureError` carries (the value the
`ValueError` message interpolates "for diagnosis"). -/
def errPayload : Except AzureError String → Option Json
  | .error (.valueErrorChoices j) => some j
  | .error (.valueErrorContent j) => some j
  | _ => none

/-- Did the extraction succeed with some text? -/
def isOkB : Except AzureError String → Bool
  | .ok _ => true
  | .error _ => false

/-- The configuration read from the environment at import time
(`azureFoundry.py` lines 20-22). `AZURE_OPENAI_DEPLOYMENT_NAME` has the
default `"gpt-4-vision"`, so it is always a string; the other two are `None`
when unset. -/
structure AzureConfig where
  endpoint : Option String
  api_key : Option String
  deployment : String

/-- Python truthiness of an optional string: `None` and `""` are falsy
(`if not AZURE_OPENAI_ENDPOINT` tests exactly this). -/
def truthyStr : Option String → Bool
  | none => false
  | some s => s != ""

/-- The HTTP request `call_azure_openai_gpt4` issues: URL, `api-key` header
value, and the `messages` value of the JSON payload. The numeric generation
parameters (`temperature`, `max_tokens`) are passed through unchanged and
play no role in any claim, so they are not modelled. -/
structure AzureRequest where
  url : String
  api_key : String
  messages : Json

/-- The HTTP transport (`requests.post` + `raise_for_status` +
`response.json()`), an oracle for the environment: either a transport-level
failure or the parsed JSON body of a success response. -/
def AzureNet : Type := AzureRequest → Except Unit Json

/-- URL construction of `call_azure_openai_gpt4` (`azureFoundry.py` line 64):
`f"{AZURE_OPENAI_ENDPOINT.rstrip('/')}/openai/deployments/{deployment}/chat/completions?api-version=2024-02-15-preview"`. -/
def buildAzureUrl (endpoint deployment : String) : String :=
  rstripSlash endpoint ++ "/openai/deployments/" ++ deployment ++
    "/chat/completions?api-version=2024-02-15-preview"

/-- Embeds `call_azure_openai_gpt4` (`azureFoundry.py` lines 39-111): check the two
required configuration values (lines 58-61), build the URL (line 64), issue
the request (line 81), then parse the body (lines 84-93, `extract_azure`).
Transport failures are re-raised unchanged (lines 95-108). -/
def call_azure_openai_gpt4 (cfg : AzureConfig) (net : AzureNet) (messages : Json) :
    Except AzureError String :=
  if truthyStr cfg.endpoint = false then .error (.configError "AZURE_OPENAI_ENDPOINT")
  else if truthyStr cfg.api_key = false then .error (.configError "AZURE_OPENAI_API_KEY")
  else
    match net ⟨buildAzureUrl (cfg.endpoint.getD "") cfg.deployment,
               cfg.api_key.getD "", messages⟩ with
    | .error _ => .error .transport
    | .ok body => extract_azure body

/-- Embeds `encode_image` (`azureFoundry.py` lines 26-37): read the file and return
its base64 encoding; `open` raises `FileNotFoundError` on a missing path. -/
def encode_image (fs : FS) (image_path : String) : Except AzureError String :=
  match fs image_path with
  | none => .error (.fileNotFound image_path)
  | some bytes => .ok (String.mk (base64Encode bytes))

/-- The `messages` list built by `send_image_message`
(`azureFoundry.py` lines 161-175). -/
def imageMessages (system_prompt text_prompt mime b64 : String) : Json :=
  .arr [.obj [("role", .str "system"), ("content", .str system_prompt)],
        .obj [("role", .str "user"),
              ("content", .arr [.obj [("type", .str "text"), ("text", .str text_prompt)],
                                .obj [("type", .str "image_url"),
                                      ("image_url", .obj [("url", .str ("data:" ++ mime ++ ";base64," ++ b64))])]])]]

/-- Embeds `send_image_message` (`azureFoundry.py` lines 131-177): existence check
first (lines 143-144), then MIME resolution (lines 147-156), base64 encoding
(line 159), message construction (lines 161-175) and the API call (line 177). -/
def send_image_message (cfg : AzureConfig) (net : AzureNet) (fs : FS)
    (image_path text_prompt system_prompt : String) : Except AzureError String :=
  if (fs image_path).isSome = false then .error (.fileNotFound image_path)
  else
    match encode_image fs image_path with
    | .error e => .error e
    | .ok b64 =>
      call_azure_openai_gpt4 cfg net
        (imageMessages system_prompt text_prompt (mimeTypeFor image_path) b64)

end Modelhub.AzureFoundry

namespace Modelhub.Vertex

open Modelhub

/-- Failures of `vertex.py` operations, as the Python exceptions the script
raises. -/
inductive VertexError where
  /-- The `FileNotFoundError` from `encode_image_for_vertex` (line 84). -/
  | fileNotFound (path : String)
  /-- The `RuntimeError("Failed to initialize Vertex AI")` of line 115. -/
  | runtimeInitFailed
  /-- The `ValueError(f"Generation stopped due to: {candidate.finish_reason}")`
  (line 144), carrying the finish reason. -/
  | generationStopped (reason : String)
  /-- The `ValueError("No text generated in response")` of line 145. -/
  | noTextGenerated

/-- A Vertex content part: a plain prompt string or a
`Part.from_data(data=.., mime_type=..)` image part. -/
inductive VPart where
  | text (s : String)
  | image (mime : String) (data : List Nat)

/-- The first candidate's metadata as inspected by `call_vertex_ai`:
`none` models a candidate without a `finish_reason` attribute. -/
structure VertexCandidate where
  finish_reason : Option String

/-- The SDK response object as consumed by `call_vertex_ai`: the convenience
`text` accessor and the optional `candidates` list (`none` models a response
object without a `candidates` attribute, `hasattr` false). -/
structure VertexResponse where
  text : String
  candidates : Option (List VertexCandidate)

/-- The response handling of `call_vertex_ai` (`vertex.py` lines 137-145):

    if response.text:
        return response.text.strip()
    else:
        if hasattr(response, 'candidates') and response.candidates:
            candidate = response.candidates[0]
            if hasattr(candidate, 'finish_reason'):
                raise ValueError(f"Generation stopped due to: {candidate.finish_reason}")
        raise ValueError("No text generated in response")
-/
def extract_vertex (r : VertexResponse) : Except VertexError String :=
  if r.text != "" then .ok (pyStrip r.text)
  else
    match r.candidates with
    | some (c :: _) =>
      match c.finish_reason with
      | some reason => .error (.generationStopped reason)
      | none => .error .noTextGenerated
    | _ => .error .noTextGenerated

/-- The SDK transport oracle: `GenerativeModel(..).generate_content(parts)`
returning the response object. The generation config (floats) plays no role
in any claim and is not modelled. -/
def VertexNet : Type := List VPart → VertexResponse

/-- Embeds `call_vertex_ai` (`vertex.py` lines 103-149): `initialize_vertex_ai`
(modelled by the boolean `initOk`, line 114), the SDK call (line 132), then
the response handling of `extract_vertex`. -/
def call_vertex_ai (initOk : Bool) (net : VertexNet) (content_parts : List VPart) :
    Except VertexError String :=
  if initOk = false then .error .runtimeInitFailed
  else extract_vertex (net content_parts)

/-- Embeds `encode_image_for_vertex` (`vertex.py` lines 73-101): existence check
(lines 83-84), MIME resolution (lines 87-96), file read, and
`Part.from_data(data=image_data, mime_type=mime_type)` (line 101). -/
def encode_image_for_vertex (fs : FS) (image_path : String) : Except VertexError VPart :=
  match fs image_path with
  | none => .error (.fileNotFound image_path)
  | some bytes => .ok (.image (mimeTypeFor image_path) bytes)

/-- The combined prompt `f"System: {system_instruction}\n\nUser: {text_content}"`
(`vertex.py` line 200; same pattern at lines 163 and 183). -/
def full_prompt (system_instruction text_content : String) : String :=
  "System: " ++ system_instruction ++ "\n\nUser: " ++ text_content

/-- The image-encoding loop of `send_multimodal_message`
(`vertex.py` lines 203-206): encode each path in order, stopping at the first
failure, in the order the paths were supplied. -/
def encodeImages (fs : FS) : List String → Except VertexError (List VPart)
  | [] => .ok []
  | p :: ps =>
    match encode_image_for_vertex fs p with
    | .error e => .error e
    | .ok part =>
      match encodeImages fs ps with
      | .error e => .error e
      | .ok rest => .ok (part :: rest)

/-- The `content_parts` list built by `send_multimodal_message`
(`vertex.py` lines 200-206): the combined prompt first, then the encoded
images appended in supplied order. -/
def send_multimodal_parts (fs : FS) (text_content : String) (image_paths : List String)
    (system_instruction : String) : Except VertexError (List VPart) :=
  match encodeImages fs image_paths with
  | .error e => .error e
  | .ok imgs => .ok (.text (full_prompt system_instruction text_content) :: imgs)

/-- Embeds `send_multimodal_message` (`vertex.py` lines 188-208): build the content
parts, then `call_vertex_ai`. -/
def send_multimodal_message (fs : FS) (initOk : Bool) (net : VertexNet)
    (text_content : String) (image_paths : List String) (system_instruction : String) :
    Except VertexError String :=
  match send_multimodal_parts fs text_content image_paths system_instruction with
  | .error e => .error e
  | .ok parts => call_vertex_ai initOk net parts

end Modelhub.Vertex

namespace Modelhub.EUResidencyValidation

/-- The EU region allow-list of `check_vertex_ai_region`
(`eu-residency-validation.py` lines 19-23). -/
def eu_regions : List String :=
  ["europe-west1", "europe-west2", "europe-west3", "europe-west4",
   "europe-west6", "europe-west8", "europe-west9", "europe-west10",
   "europe-central2", "europe-north1"]

/-- Embeds `check_vertex_ai_region` (`eu-residency-validation.py` lines 15-30):
`location = os.getenv("VERTEX_AI_LOCATION", "us-central1")`, then
`location in eu_regions`. The argument is the raw environment value
(`none` when unset). -/
def check_vertex_ai_region (envLocation : Option String) : Bool :=
  let location := envLocation.getD "us-central1"
  eu_regions.contains location

end Modelhub.EUResidencyValidation

namespace Modelhub

open Modelhub.AzureFoundry

/-- The spec's shape-1 example body: valid chat-completion response with
content string `"  hi  "`. -/
def chatShapeExample : Json :=
  .obj [("choices", .arr [.obj [("message", .obj [("content", .str "  hi  ")])]])]

/-- The spec's shape-2 example body: first choice has a `text` field and no
`message` key. -/
def legacyShapeExample : Json :=
  .obj [("choices", .arr [.obj [("text", .str "legacy")]])]

/-- The spec's unrecognized-shape example body. -/
def unexpectedShapeExample : Json :=
  .obj [("unexpected", .str "shape")]

/-- A chat-completion body whose `content` value is JSON `null` (as real
chat-completion APIs return for tool-call turns). -/
def nullContentExample : Json :=
  .obj [("choices", .arr [.obj [("message", .obj [("content", .null)])]])]


end Modelhub

namespace Modelhub.AzureFoundry

open Modelhub

/-- A well-typed `content` slot: absent, or a string. -/
def contentWF : Option Json → Bool
  | none => true
  | some (.str _) => true
  | some _ => false

/-- A well-typed choice entry: an object whose `message` value, when present,
is an object whose `content` value, when present, is a string. -/
def choiceWF : Json → Bool
  | .obj fields =>
    (match lookupField fields "message" with
     | none => true
     | some (.obj mfields) => contentWF (lookupField mfields "content")
     | some _ => false)
  | _ => false

/-- A well-typed chat-completion response body: a JSON object whose
`choices` value, when present, is an array of well-typed choice entries.
On bodies outside this class the Python parsing step can raise dynamic
errors (`TypeError`, `AttributeError`) instead of its own `ValueError`s. -/
def chatWellFormed : Json → Bool
  | .obj fields =>
    (match lookupField fields "choices" with
     | none => true
     | some (.arr cs) => cs.all choiceWF
     | some _ => false)
  | _ => false

end Modelhub.AzureFoundry

namespace Modelhub

open Modelhub.AzureFoundry Modelhub.Vertex

/-- A fully populated Azure configuration, for witnesses. -/
def cfgFull : AzureFoundry.AzureConfig :=
  ⟨some "https://res.openai.azure.example", some "secret-key", "gpt-4-vision"⟩

/-- An Azure configuration with the endpoint variable unset. -/
def cfgNoEndpoint : AzureFoundry.AzureConfig :=
  ⟨none, some "secret-key", "gpt-4-vision"⟩

/-- A transport oracle answering every request with an empty JSON object. -/
def netOkEmpty : AzureFoundry.AzureNet := fun _ => .ok (.obj [])

/-- A transport oracle failing every request. -/
def netFail : AzureFoundry.AzureNet := fun _ => .error ()

/-- An empty filesystem: no path exists. -/
def fsNone : FS := fun _ => none

/-- A filesystem holding two small image files. -/
def fsTwo : FS := fun p =>
  if p = "a.png" then some [1, 2] else if p = "b.jpg" then some [3] else none

/-- A Vertex transport oracle whose response has an empty text accessor and a
first candidate with finish reason `"SAFETY"`. -/
def vNetBlocked : Vertex.VertexNet := fun _ => ⟨"", some [⟨some "SAFETY"⟩]⟩

end Modelhub

namespace Modelhub

open Modelhub.AzureFoundry Modelhub.Vertex Modelhub.EUResidencyValidation

/-! ## Helper lemmas -/

theorem pyContains_of_jLookup {j v : Json} {k : String} (h : jLookup j k = some v) :
    pyContains j k = .ok true := by
  cases j <;> simp [jLookup] at h
  simp [pyContains, h]

theorem pyGetItemStr_of_jLookup {j v : Json} {k : String} (h : jLookup j k = some v) :
    pyGetItemStr j k = .ok v := by
  cases j <;> simp [jLookup] at h
  simp [pyGetItemStr, h]

theorem pyContains_obj_none {fields : List (String × Json)} {k : String}
    (h : lookupField fields k = none) : pyContains (.obj fields) k = .ok false := by
  simp [pyContains, h]

theorem dropWhile_slash_replicate (k : Nat) (l : List Char) :
    List.dropWhile (fun c => c == '/') (List.replicate k '/' ++ l) =
      List.dropWhile (fun c => c == '/') l := by
  induction k with
  | zero => rfl
  | succ n ih => simp [List.replicate_succ, List.dropWhile_cons, ih]

theorem rstripSlash_append_slashes (E : String) (k : Nat) :
    rstripSlash (E ++ String.mk (List.replicate k '/')) = rstripSlash E := by
  unfold rstripSlash
  rw [String.data_append]
  show String.mk (((E.data ++ (String.mk (List.replicate k '/')).data).reverse.dropWhile
    (fun c => c == '/')).reverse) = _
  rw [show (String.mk (List.replicate k '/')).data = List.replicate k '/' from rfl,
    List.reverse_append, List.reverse_replicate, dropWhile_slash_replicate]

theorem find?_none_of_key_not_mem (key : String) (table : List (String × String))
    (h : key ∉ table.map Prod.fst) :
    table.find? (fun q => q.1 == key) = none := by
  induction table with
  | nil => rfl
  | cons kv rest ih =>
    simp only [List.map_cons, List.mem_cons, not_or] at h
    rw [List.find?_cons_of_neg, ih h.2]
    simp only [beq_iff_eq]
    exact fun hh => h.1 (hh ▸ rfl)

theorem encodeImages_map (fs : FS) (paths : List String)
    (h : ∀ p ∈ paths, (fs p).isSome = true) :
    encodeImages fs paths =
      .ok (paths.map fun p => VPart.image (mimeTypeFor p) ((fs p).getD [])) := by
  induction paths with
  | nil => rfl
  | cons p ps ih =>
    obtain ⟨bs, hbs⟩ := Option.isSome_iff_exists.mp (h p (List.mem_cons_self p ps))
    have hih := ih fun q hq => h q (List.mem_cons_of_mem p hq)
    simp [encodeImages, encode_image_for_vertex, hbs, hih]

theorem extract_azure_wf_cases (raw : Json) (h : chatWellFormed raw = true) :
    (∃ s, extract_azure raw = .ok s) ∨
      extract_azure raw = .error (.valueErrorChoices raw) ∨
      extract_azure raw = .error (.valueErrorContent raw) := by
  cases raw with
  | null => simp [chatWellFormed] at h
  | bool b => simp [chatWellFormed] at h
  | num n => simp [chatWellFormed] at h
  | str s => simp [chatWellFormed] at h
  | arr xs => simp [chatWellFormed] at h
  | obj fields =>
    simp only [chatWellFormed] at h
    cases hl : lookupField fields "choices" with
    | none =>
      right; left
      simp [extract_azure, pyContains, hl]
    | some v =>
      rw [hl] at h
      cases v with
      | null => simp at h
      | bool b => simp at h
      | num n => simp at h
      | str s => simp at h
      | obj g => simp at h
      | arr cs =>
        simp only at h
        cases cs with
        | nil =>
          right; left
          simp [extract_azure, choicesNonempty, pyContains, pyGetItemStr, pyLen, hl]
        | cons c rest =>
          rw [List.all_cons, Bool.and_eq_true] at h
          obtain ⟨hcw, -⟩ := h
          have hpos : decide (List.length rest + 1 > 0) = true :=
            decide_eq_true (Nat.succ_pos rest.length)
          cases c with
          | null => simp [choiceWF] at hcw
          | bool b => simp [choiceWF] at hcw
          | num n => simp [choiceWF] at hcw
          | str s => simp [choiceWF] at hcw
          | arr ys => simp [choiceWF] at hcw
          | obj cf =>
            simp only [choiceWF] at hcw
            cases hm : lookupField cf "message" with
            | none =>
              right; right
              simp [extract_azure, choicesNonempty, pyContains, pyGetItemStr, pyLen,
                pyGetItemZero, hl, hm, hpos]
            | some m =>
              rw [hm] at hcw
              cases m with
              | null => simp at hcw
              | bool b => simp at hcw
              | num n => simp at hcw
              | str s => simp at hcw
              | arr ys => simp at hcw
              | obj mf =>
                simp only at hcw
                cases hct : lookupField mf "content" with
                | none =>
                  right; right
                  simp [extract_azure, choicesNonempty, messageHasContent, pyContains,
                    pyGetItemStr, pyLen, pyGetItemZero, hl, hm, hct, hpos]
                | some ct =>
                  rw [hct] at hcw
                  cases ct with
                  | null => simp [contentWF] at hcw
                  | bool b => simp [contentWF] at hcw
                  | num n => simp [contentWF] at hcw
                  | arr ys => simp [contentWF] at hcw
                  | obj g => simp [contentWF] at hcw
                  | str s =>
                    left
                    refine ⟨pyStrip s, ?_⟩
                    simp [extract_azure, choicesNonempty, messageHasContent, pyContains,
                      pyGetItemStr, pyLen, pyGetItemZero, pyStripAttr, hl, hm, hct, hpos]

/-! ## Claim theorems -/

/-- C1: for every raw JSON body whose `choices` list is non-empty and whose
first choice has a `message` object containing a `content` string, the
parsing step of `call_azure_openai_gpt4` returns that string with leading
and trailing whitespace removed. -/
theorem azure_extract_chat_shape (raw c0 msg : Json) (cs : List Json) (s : String)
    (h1 : jLookup raw "choices" = some (.arr (c0 :: cs)))
    (h2 : jLookup c0 "message" = some msg)
    (h3 : jLookup msg "content" = some (.str s)) :
    extract_azure raw = .ok (pyStrip s) := by
  have hpos : decide (List.length cs + 1 > 0) = true :=
    decide_eq_true (Nat.succ_pos cs.length)
  simp [extract_azure, choicesNonempty, messageHasContent, pyLen, pyGetItemZero,
    pyStripAttr, pyContains_of_jLookup h1, pyGetItemStr_of_jLookup h1,
    pyContains_of_jLookup h2, pyGetItemStr_of_jLookup h2,
    pyContains_of_jLookup h3, pyGetItemStr_of_jLookup h3, hpos]

/-- Witness for C1: the spec's example `{"choices":[{"message":{"content":"  hi  "}}]}`
yields `"hi"`. -/
theorem azure_extract_chat_shape_witness : extract_azure chatShapeExample = .ok "hi" :=
  (azure_extract_chat_shape chatShapeExample
    (.obj [("message", .obj [("content", .str "  hi  ")])])
    (.obj [("content", .str "  hi  ")]) [] "  hi  " rfl rfl rfl).trans rfl

/-- C2 counterexample: on `{"choices":[{"text":"legacy"}]}` the parsing step
of `call_azure_openai_gpt4` does not fall back to the `text` field; it raises
the `'message.content' not found` `ValueError`, so it does not return
`"legacy"`. -/
theorem azure_extract_no_text_fallback_cex :
    extract_azure legacyShapeExample = .error (.valueErrorContent legacyShapeExample) ∧
      extract_azure legacyShapeExample ≠ .ok "legacy" := by
  refine ⟨rfl, fun hcontra => ?_⟩
  rw [(rfl : extract_azure legacyShapeExample =
    .error (.valueErrorContent legacyShapeExample))] at hcontra
  exact Except.noConfusion hcontra

/-- C2 amended: for every raw body whose first choice carries a `text` field
but no `message` key, the parsing step of `call_azure_openai_gpt4` does not
fall back to the `text` field: it fails with the `ValueError` reporting that
`message.content` was not found, carrying the full response. -/
theorem azure_extract_no_text_fallback (raw c0 : Json) (cs : List Json) (t : String)
    (h1 : jLookup raw "choices" = some (.arr (c0 :: cs)))
    (h2 : jLookup c0 "text" = some (.str t))
    (h3 : jLookup c0 "message" = none) :
    extract_azure raw = .error (.valueErrorContent raw) := by
  have hpos : decide (List.length cs + 1 > 0) = true :=
    decide_eq_true (Nat.succ_pos cs.length)
  cases c0 with
  | null => simp [jLookup] at h2
  | bool b => simp [jLookup] at h2
  | num n => simp [jLookup] at h2
  | str s => simp [jLookup] at h2
  | arr ys => simp [jLookup] at h2
  | obj cf =>
    simp only [jLookup] at h3
    simp [extract_azure, choicesNonempty, pyLen, pyGetItemZero,
      pyContains_of_jLookup h1, pyGetItemStr_of_jLookup h1, hpos,
      pyContains_obj_none h3]

/-- Witness for the amended C2 at the spec's example input. -/
theorem azure_extract_no_text_fallback_witness :
    extract_azure legacyShapeExample = .error (.valueErrorContent legacyShapeExample) :=
  azure_extract_no_text_fallback legacyShapeExample
    (.obj [("text", .str "legacy")]) [] "legacy" rfl rfl rfl

/-- C3 counterexample: the body `{"choices":[{"message":{"content":null}}]}`
(a real chat-completion shape for tool-call turns) matches none of the known
text-extraction shapes — extraction does not succeed — yet the parsing step
of `call_azure_openai_gpt4` fails with Python's `AttributeError`
(`None.strip()`), an error that does not carry the original response. -/
theorem azure_extract_unrecognized_payload_cex :
    isOkB (extract_azure nullContentExample) = false ∧
      extract_azure nullContentExample = .error .attributeError ∧
      errPayload (extract_azure nullContentExample) = none :=
  ⟨rfl, rfl, rfl⟩

/-- C3 amended: for every well-typed response body (`chatWellFormed`: the
`choices` value, when present, is an array of objects whose `message` values
are objects with string `content` when present) on which extraction does not
succeed, the parsing step fails with a `ValueError` carrying the full
original response. Outside that class Python dynamic errors that carry no
payload can occur instead. -/
theorem azure_extract_unrecognized_payload (raw : Json)
    (h1 : chatWellFormed raw = true) (h2 : isOkB (extract_azure raw) = false) :
    errPayload (extract_azure raw) = some raw := by
  rcases extract_azure_wf_cases raw h1 with ⟨s, hs⟩ | hch | hco
  · rw [hs] at h2
    simp [isOkB] at h2
  · rw [hch]; rfl
  · rw [hco]; rfl

/-- Witness for the amended C3 at the spec's example `{"unexpected":"shape"}`. -/
theorem azure_extract_unrecognized_payload_witness :
    errPayload (extract_azure unexpectedShapeExample) = some unexpectedShapeExample :=
  azure_extract_unrecognized_payload unexpectedShapeExample rfl rfl

/-- C4: when the Vertex response has an empty text accessor and a non-empty
candidates list whose first candidate carries a finish reason,
`call_vertex_ai` fails with the `Generation stopped` error carrying that
reason; it fails with the generic `No text generated` error exactly when no
first-candidate finish reason is available. -/
theorem vertex_generation_blocked (initOk : Bool) (net : VertexNet)
    (parts : List VPart) (r : VertexResponse)
    (hInit : initOk = true) (hNet : net parts = r) (hText : r.text = "") :
    (∀ c cs reason, r.candidates = some (c :: cs) → c.finish_reason = some reason →
        call_vertex_ai initOk net parts = .error (.generationStopped reason)) ∧
      (call_vertex_ai initOk net parts = .error .noTextGenerated ↔
        ∀ c cs, r.candidates = some (c :: cs) → c.finish_reason = none) := by
  subst hInit
  constructor
  · intro c cs reason hcand hfin
    simp [call_vertex_ai, extract_vertex, hNet, hText, hcand, hfin]
  · cases hcand : r.candidates with
    | none =>
      constructor
      · intro _ c cs hcc
        exact Option.noConfusion hcc
      · intro _
        simp [call_vertex_ai, extract_vertex, hNet, hText, hcand]
    | some l =>
      cases l with
      | nil =>
        constructor
        · intro _ c cs hcc
          simp at hcc
        · intro _
          simp [call_vertex_ai, extract_vertex, hNet, hText, hcand]
      | cons c0 rest =>
        cases hfin : c0.finish_reason with
        | none =>
          constructor
          · intro _ c cs hcc
            injection hcc with hcc2
            injection hcc2 with hc0 hrest
            rw [← hc0]
            exact hfin
          · intro _
            simp [call_vertex_ai, extract_vertex, hNet, hText, hcand, hfin]
        | some reason =>
          have hval : call_vertex_ai true net parts = .error (.generationStopped reason) := by
            simp [call_vertex_ai, extract_vertex, hNet, hText, hcand, hfin]
          constructor
          · intro hno
            rw [hval] at hno
            injection hno with hbad
            exact VertexError.noConfusion hbad
          · intro hall
            have hnone := hall c0 rest rfl
            rw [hfin] at hnone
            exact Option.noConfusion hnone

/-- Witness for C4: a blocked response with finish reason `"SAFETY"` makes
`call_vertex_ai` fail with that reason. -/
theorem vertex_generation_blocked_witness :
    call_vertex_ai true vNetBlocked [VPart.text "hello"] =
      .error (.generationStopped "SAFETY") :=
  (vertex_generation_blocked true vNetBlocked [VPart.text "hello"]
    ⟨"", some [⟨some "SAFETY"⟩]⟩ rfl rfl rfl).1 ⟨some "SAFETY"⟩ [] "SAFETY" rfl rfl

/-- C5: when every supplied image path exists, `send_multimodal_message`
passes `call_vertex_ai` exactly the content-part list whose first element is
the text part (the combined system/user prompt) and whose subsequent elements
are the image parts for the paths in the order supplied, none dropped. -/
theorem send_multimodal_order (fs : FS) (initOk : Bool) (net : VertexNet)
    (text_content system_instruction : String) (image_paths : List String)
    (h : ∀ p ∈ image_paths, (fs p).isSome = true) :
    send_multimodal_message fs initOk net text_content image_paths system_instruction =
      call_vertex_ai initOk net
        (VPart.text (full_prompt system_instruction text_content) ::
          image_paths.map fun p => VPart.image (mimeTypeFor p) ((fs p).getD [])) := by
  simp [send_multimodal_message, send_multimodal_parts, encodeImages_map fs image_paths h]

/-- Witness for C5 on a two-image filesystem: the parts arrive in supplied
order with the text part first. -/
theorem send_multimodal_order_witness :
    send_multimodal_message fsTwo true vNetBlocked "look" ["a.png", "b.jpg"] "sys" =
      call_vertex_ai true vNetBlocked
        [VPart.text "System: sys\n\nUser: look",
         VPart.image "image/png" [1, 2], VPart.image "image/jpeg" [3]] :=
  (send_multimodal_order fsTwo true vNetBlocked "look" "sys" ["a.png", "b.jpg"]
    (by decide)).trans rfl

/-- C6: MIME resolution is a total function of the filename, agreeing with
the fixed table on the lowercased extension and falling back to `image/jpeg`
on every extension outside the table (including no extension). -/
theorem mime_resolution_total (p : String) :
    (lowerAscii (pathSuffix p) = ".jpg" ∨ lowerAscii (pathSuffix p) = ".jpeg" →
        mimeTypeFor p = "image/jpeg") ∧
      (lowerAscii (pathSuffix p) = ".png" → mimeTypeFor p = "image/png") ∧
      (lowerAscii (pathSuffix p) = ".gif" → mimeTypeFor p = "image/gif") ∧
      (lowerAscii (pathSuffix p) = ".webp" → mimeTypeFor p = "image/webp") ∧
      (lowerAscii (pathSuffix p) ∉ mime_type_map.map Prod.fst →
        mimeTypeFor p = "image/jpeg") := by
  refine ⟨fun h => ?_, fun h => ?_, fun h => ?_, fun h => ?_, fun h => ?_⟩
  · rcases h with h | h <;> simp [mimeTypeFor, mime_type_map, h]
  · simp [mimeTypeFor, mime_type_map, h]
  · simp [mimeTypeFor, mime_type_map, h]
  · simp [mimeTypeFor, mime_type_map, h]
  · rw [mimeTypeFor, find?_none_of_key_not_mem _ _ h]

/-- Witness for C6: a known uppercase extension resolves through the table
and an unknown extension falls back to `image/jpeg`. -/
theorem mime_resolution_total_witness :
    mimeTypeFor "photo.PNG" = "image/png" ∧ mimeTypeFor "scan.bmp" = "image/jpeg" :=
  ⟨(mime_resolution_total "photo.PNG").2.1 rfl,
   (mime_resolution_total "scan.bmp").2.2.2.2 (by decide)⟩

/-- C7: on a nonexistent path, `send_image_message` (Azure) fails with
`FileNotFoundError` independently of the transport oracle — no request is
issued — and `encode_image_for_vertex` fails with `FileNotFoundError`. -/
theorem image_not_found_fails_fast (cfg : AzureConfig) (net net2 : AzureNet)
    (fs : FS) (p text_prompt system_prompt : String) (h : fs p = none) :
    send_image_message cfg net fs p text_prompt system_prompt =
        .error (.fileNotFound p) ∧
      send_image_message cfg net fs p text_prompt system_prompt =
        send_image_message cfg net2 fs p text_prompt system_prompt ∧
      encode_image_for_vertex fs p = .error (.fileNotFound p) := by
  refine ⟨?_, ?_, ?_⟩ <;>
    simp [send_image_message, encode_image_for_vertex, h]

/-- Witness for C7 at a concrete missing path. -/
theorem image_not_found_fails_fast_witness :
    send_image_message cfgFull netOkEmpty fsNone "missing.png" "t" "s" =
      .error (.fileNotFound "missing.png") :=
  (image_not_found_fails_fast cfgFull netOkEmpty netFail fsNone "missing.png" "t" "s"
    rfl).1

/-- C8: when the endpoint or API-key configuration value is absent (unset or
empty), `call_azure_openai_gpt4` fails with a `ValueError` naming the missing
environment variable, and the result does not depend on the transport oracle
— no HTTP request is issued. -/
theorem azure_config_fail_fast (cfg : AzureConfig) (net net2 : AzureNet)
    (messages : Json) :
    (truthyStr cfg.endpoint = false →
        call_azure_openai_gpt4 cfg net messages =
            .error (.configError "AZURE_OPENAI_ENDPOINT") ∧
          call_azure_openai_gpt4 cfg net messages =
            call_azure_openai_gpt4 cfg net2 messages) ∧
      (truthyStr cfg.endpoint = true → truthyStr cfg.api_key = false →
        call_azure_openai_gpt4 cfg net messages =
            .error (.configError "AZURE_OPENAI_API_KEY") ∧
          call_azure_openai_gpt4 cfg net messages =
            call_azure_openai_gpt4 cfg net2 messages) := by
  constructor
  · intro h
    constructor <;> simp [call_azure_openai_gpt4, h]
  · intro h1 h2
    constructor <;> simp [call_azure_openai_gpt4, h1, h2]

/-- Witness for C8: with `AZURE_OPENAI_ENDPOINT` unset the call fails naming
that variable. -/
theorem azure_config_fail_fast_witness :
    call_azure_openai_gpt4 cfgNoEndpoint netOkEmpty (.arr []) =
      .error (.configError "AZURE_OPENAI_ENDPOINT") :=
  ((azure_config_fail_fast cfgNoEndpoint netOkEmpty netFail (.arr [])).1 rfl).1

/-- C9: `check_vertex_ai_region` returns `true` exactly when the
`VERTEX_AI_LOCATION` value (defaulting to `us-central1` when unset) is one of
the ten listed EU regions; in particular it returns `false` when unset. -/
theorem vertex_region_check_iff (envLocation : Option String) :
    (check_vertex_ai_region envLocation = true ↔
        envLocation.getD "us-central1" ∈ eu_regions) ∧
      check_vertex_ai_region none = false := by
  constructor
  · simp [check_vertex_ai_region]
  · rfl

/-- C10: the URL built by `call_azure_openai_gpt4` is insensitive to trailing
slashes in the configured endpoint: appending any number of `'/'` characters
to the endpoint yields the identical URL. (Determinism is definitional: the
URL is a pure function of endpoint and deployment.) -/
theorem azure_url_trailing_slash (E deployment : String) (k : Nat) :
    buildAzureUrl (E ++ String.mk (List.replicate k '/')) deployment =
      buildAzureUrl E deployment := by
  unfold buildAzureUrl
  rw [rstripSlash_append_slashes]

end Modelhub
